import Mathlib

/-!
Verification of the neo-cord gateway library (shard state machine, sharding
supervisor, heartbeat, session, zlib-stream decompression) against its
natural-language specification.  Every definition is a shallow embedding of
the corresponding TypeScript source; stateful methods become pure functions
from a state record to a new state paired with the list of observable
effects they perform (event emissions, debug logs, socket operations, timer
operations, payload admissions), in source order.
-/

namespace NeoCord

/-! ## Close-code sets (src/src/lib/Manager.ts lines 15-20, src/src/constants.ts lines 63-78)

`GatewayCloseCode` is a numeric TypeScript enum.  Its compiled object holds
both the reverse mappings (numeric-string keys mapping to member names) and
the forward mappings (name keys mapping to numbers).  JavaScript orders
integer-like keys first, ascending, then string keys in insertion order, so
`Object.values(GatewayCloseCode)` is the member-name strings (ascending by
code) followed by the numeric codes (declaration order).  `slice(1)` drops
the first element of that list. -/

/-- A JavaScript primitive value as far as `Array.prototype.includes`
(SameValueZero) is concerned here: a string or a number.  A number is never
equal to a string. -/
inductive JsVal
  | str (s : String)
  | num (n : Nat)
deriving DecidableEq, Repr

/-- The members of `enum GatewayCloseCode` in declaration order
(src/src/constants.ts lines 63-78).  Values are 4000-4005 and 4007-4014;
4006 is skipped in the source. -/
def gatewayCloseCodeMembers : List (String × Nat) :=
  [ ("UnknownError", 4000)
  , ("UnknownOpCode", 4001)
  , ("DecodeError", 4002)
  , ("NotAuthenticated", 4003)
  , ("AuthenticationFailed", 4004)
  , ("AlreadyAuthenticated", 4005)
  , ("InvalidSeq", 4007)
  , ("RateLimited", 4008)
  , ("SessionTimedOut", 4009)
  , ("InvalidShard", 4010)
  , ("ShardingRequired", 4011)
  , ("InvalidAPIVersion", 4012)
  , ("InvalidIntents", 4013)
  , ("DisallowedIntents", 4014)
  ]

/-- `Object.values(GatewayCloseCode)`: the declaration order of the members
is ascending in code, so the integer-keyed reverse entries (whose values are
the member NAMES) come first, followed by the name-keyed forward entries
(whose values are the numeric codes). -/
def gatewayCloseCodeObjectValues : List JsVal :=
  gatewayCloseCodeMembers.map (fun p => JsVal.str p.fst)
    ++ gatewayCloseCodeMembers.map (fun p => JsVal.num p.snd)

/-- `const unrecoverable = Object.values(GatewayCloseCode).slice(1)`
(Manager.ts line 15).  Note `slice(1)` drops the string "UnknownError", not
the number 4000. -/
def unrecoverable : List JsVal :=
  gatewayCloseCodeObjectValues.drop 1

/-- `unrecoverable.includes(code)` for a numeric close code. -/
def unrecoverableIncludes (c : Nat) : Bool :=
  unrecoverable.contains (JsVal.num c)

/-- `const un_resumable = [1000, 4006, GatewayCloseCode.InvalidSeq]`
(Manager.ts lines 16-20). -/
def unResumable : List Nat := [1000, 4006, 4007]

/-- `un_resumable.includes(code)`. -/
def unResumableIncludes (c : Nat) : Bool :=
  unResumable.contains c

/-- The close-listener fatality test, Manager.ts line 227:
`event.code === 1000 ? this.destroyed : unrecoverable.includes(event.code)`. -/
def closeIsFatal (destroyed : Bool) (c : Nat) : Bool :=
  if c == 1000 then destroyed else unrecoverableIncludes c

/-- Modelled from the spec: the unrecoverable set as the specification
states it, namely the codes 4001-4005 and 4008-4014 (all of 4000-4014
except UnknownError 4000 and InvalidSeq 4007). -/
def specUnrecoverable (c : Nat) : Bool :=
  (4001 ≤ c && c ≤ 4005) || (4008 ≤ c && c ≤ 4014)

/-! ## Zlib streaming decompression (src/src/lib/compression/Zlib.ts)

The component keeps `_chunks` (decoded chunks pushed by the inflater),
`_incomingChunks` (compressed chunks deferred while a flush is pending) and
a `_flushing` flag.  The external node-zlib inflater is modelled as the
identity transducer: each `_zlib.write(buf)` pushes `buf` itself onto
`_chunks` (the stream is created with a default flush of `Z_SYNC_FLUSH`, so
data events follow each write).  This is sufficient because the claims under
verification concern the number, order and grouping of `data` emissions,
which depend only on the boundary logic of `_addBuffer`, `_write` and
`_flush`, not on the decompression transform itself.  Byte buffers are
lists of naturals. -/

structure ZlibState where
  chunks : List (List Nat) := []
  incomingChunks : List (List Nat) := []
  flushing : Bool := false
deriving DecidableEq, Repr

/-- Big-endian 32-bit read of four bytes, as `Buffer.readUInt32BE`. -/
def readUInt32BE4 (b0 b1 b2 b3 : Nat) : Nat :=
  ((b0 * 256 + b1) * 256 + b2) * 256 + b3

/-- The suffix test of `Zlib._write` (Zlib.ts lines 110-111):
`l >= 4 && buf.readUInt32BE(l - 4) === 0xFFFF`, i.e. the final four bytes
are `00 00 FF FF`. -/
def bufEndsWithFlushSuffix (buf : List Nat) : Bool :=
  let l := buf.length
  (decide (4 ≤ l)) &&
    (match buf.drop (l - 4) with
     | [b0, b1, b2, b3] => readUInt32BE4 b0 b1 b2 b3 == 0xFFFF
     | _ => false)

/-- `Zlib._write` without running the flush callback: writes the buffer to
the inflater (identity model: the decoded chunk is pushed onto `_chunks`),
and if the buffer ends with the sync-flush suffix, sets `_flushing` and
requests a flush.  Returns whether a flush was requested (the boolean the
source returns). -/
def Zlib.write1 (st : ZlibState) (buf : List Nat) : ZlibState × Bool :=
  let st1 : ZlibState := { st with chunks := st.chunks ++ [buf] }
  if bufEndsWithFlushSuffix buf then
    ({ st1 with flushing := true }, true)
  else
    (st1, false)

/-- The drain loop inside `Zlib._flush` (Zlib.ts lines 95-98): shift
deferred chunks and `_write` them until one of them requests another flush.
Returns whether another flush was requested. -/
def Zlib.drainGo : List (List Nat) → ZlibState → ZlibState × Bool
  | [], st => (st, false)
  | next :: rest, st =>
    let (st1, trig) := Zlib.write1 { st with incomingChunks := rest } next
    if trig then (st1, true) else Zlib.drainGo rest st1

/-- `Zlib._flush` (Zlib.ts lines 85-101): clear `_flushing`; if no decoded
chunks are pending do nothing; otherwise concatenate them into one message,
clear `_chunks`, run the drain loop, and emit the message.  A flush
requested by the drain loop runs on a later tick, after this emission, so
it is returned to the driver rather than run inline. -/
def Zlib.flushStep (st : ZlibState) : ZlibState × List (List Nat) × Bool :=
  let st1 : ZlibState := { st with flushing := false }
  if st1.chunks.isEmpty then (st1, [], false)
  else
    let buf := st1.chunks.flatten
    let st2 : ZlibState := { st1 with chunks := [] }
    let (st3, trig) := Zlib.drainGo st2.incomingChunks st2
    (st3, [buf], trig)

/-- Runs pending flushes to quiescence.  Each iteration that schedules a
further flush has consumed at least one deferred chunk, so fuel bounded by
the number of deferred chunks plus one suffices. -/
def Zlib.runFlushes : Nat → ZlibState → ZlibState × List (List Nat)
  | 0, st => (st, [])
  | Nat.succ fuel, st =>
    let (st1, out, again) := Zlib.flushStep st
    if again then
      let (st2, out2) := Zlib.runFlushes fuel st1
      (st2, out ++ out2)
    else (st1, out)

/-- `Zlib._addBuffer` (Zlib.ts lines 75-79) under the single-threaded
schedule in which a requested flush completes before the next `add` call
arrives: if currently flushing, defer the chunk; otherwise write it, and if
that requested a flush, run flushes to completion. -/
def Zlib.addBuffer (st : ZlibState) (buf : List Nat) : ZlibState × List (List Nat) :=
  if st.flushing then
    ({ st with incomingChunks := st.incomingChunks ++ [buf] }, [])
  else
    let (st1, trig) := Zlib.write1 st buf
    if trig then Zlib.runFlushes (st1.incomingChunks.length + 1) st1
    else (st1, [])

/-- The initial decompressor state. -/
def Zlib.initState : ZlibState := {}

/-- Feeds a sequence of `add` calls (one buffer each) to the decompressor
and collects the emitted `data` buffers in order. -/
def Zlib.runAdds (st : ZlibState) : List (List Nat) → ZlibState × List (List Nat)
  | [] => (st, [])
  | buf :: rest =>
    let (st1, out1) := Zlib.addBuffer st buf
    let (st2, out2) := Zlib.runAdds st1 rest
    (st2, out1 ++ out2)

/-- Modelled from the spec: the reference emission schedule for comparison.
Scanning the `add` chunks in order while accumulating, each chunk whose
final four bytes are `00 00 FF FF` flushes one emission consisting of the
concatenation of everything accumulated since the previous flush. -/
def zlibExpectedEmissions : List (List Nat) → List (List Nat) → List (List Nat)
  | [], _acc => []
  | c :: cs, acc =>
    if bufEndsWithFlushSuffix c then
      (acc ++ [c]).flatten :: zlibExpectedEmissions cs []
    else
      zlibExpectedEmissions cs (acc ++ [c])

theorem Zlib.addBuffer_quiescent (acc : List (List Nat)) (buf : List Nat) :
    Zlib.addBuffer ⟨acc, [], false⟩ buf =
      if bufEndsWithFlushSuffix buf then
        (⟨[], [], false⟩, [(acc ++ [buf]).flatten])
      else
        (⟨acc ++ [buf], [], false⟩, []) := by
  by_cases h : bufEndsWithFlushSuffix buf = true
  · simp [Zlib.addBuffer, Zlib.write1, Zlib.runFlushes, Zlib.flushStep, Zlib.drainGo, h]
  · simp [Zlib.addBuffer, Zlib.write1, h]

theorem Zlib.runAdds_emissions (cs : List (List Nat)) (acc : List (List Nat)) :
    (Zlib.runAdds ⟨acc, [], false⟩ cs).2 = zlibExpectedEmissions cs acc := by
  induction cs generalizing acc with
  | nil => simp [Zlib.runAdds, zlibExpectedEmissions]
  | cons c cs ih =>
    by_cases h : bufEndsWithFlushSuffix c = true
    · simp [Zlib.runAdds, Zlib.addBuffer_quiescent, zlibExpectedEmissions, h, ih]
    · simp [Zlib.runAdds, Zlib.addBuffer_quiescent, zlibExpectedEmissions, h, ih]

/-! ## Data model (src/src/constants.ts, src/src/lib/Shard.ts fields)

Gateway opcodes are the numeric values of `GatewayOpCode`
(constants.ts lines 10-22). -/

def opDispatch : Nat := 0
def opHeartbeat : Nat := 1
def opIdentify : Nat := 2
def opResume : Nat := 6
def opReconnect : Nat := 7
def opInvalidSession : Nat := 9
def opHello : Nat := 10
def opHeartbeatAck : Nat := 11

/-- `enum Status` (constants.ts lines 80-91). -/
inductive Status
  | Connected
  | Idle
  | Ready
  | Resuming
  | Identifying
  | Reconnecting
  | Nearly
  | Disconnected
  | Connecting
  | WaitingForGuilds
deriving DecidableEq, Repr

/-- WebSocket ready states. -/
inductive WsState
  | CONNECTING
  | OPEN
  | CLOSING
  | CLOSED
deriving DecidableEq, Repr

/-- The payload body `d`.  Only the shapes the core dispatches on are
distinguished; every other body is opaque (`otherD`). -/
inductive PayloadData
  | noneD
  | boolD (b : Bool)
  | seqD (n : Int)
  | helloD (heartbeatInterval : Nat)
  | readyD (sessionId : Option String) (guilds : List String)
  | guildD (id : String)
  | identifyD (token : String) (shardId : Nat) (shardCount : Nat) (intents : Nat)
  | resumeD (token : String) (sequence : Int) (sessionId : String)
  | otherD
deriving DecidableEq, Repr

/-- `pk.d?.session_id`: undefined unless the body carries one. -/
def PayloadData.sessionId : PayloadData → Option String
  | .readyD sid _ => sid
  | _ => none

/-- `pk.d?.guilds?.map(g => g.id)`: empty unless the body carries guilds. -/
def PayloadData.guildIds : PayloadData → List String
  | .readyD _ gs => gs
  | _ => []

/-- `pk.d?.id` for a GUILD_CREATE body. -/
def PayloadData.guildId : PayloadData → Option String
  | .guildD i => some i
  | _ => none

/-- `pk.d?.heartbeat_interval` for a Hello body. -/
def PayloadData.helloInterval : PayloadData → Nat
  | .helloD n => n
  | _ => 0

/-- JavaScript truthiness of the body, used by `if (pk.d)` in the
InvalidSession branch: undefined and `false` are falsy, everything else
the core receives there is truthy. -/
def PayloadData.truthy : PayloadData → Bool
  | .noneD => false
  | .boolD b => b
  | _ => true

/-- A gateway payload `{ op, t?, s?, d? }` (constants.ts lines 114-119). -/
structure Payload where
  op : Nat
  t : Option String := none
  s : Option Int := none
  d : PayloadData := PayloadData.noneD
deriving DecidableEq, Repr

/-- `enum ShardEvent` payloads as emitted by the shard
(constants.ts lines 93-101).  `FullReady` optionally carries the
still-missing guild-id set. -/
inductive ShardEv
  | Error
  | Close (code : Nat)
  | Ready
  | Resumed
  | InvalidSession
  | Destroyed
  | FullReady (missing : Option (List String))
deriving DecidableEq, Repr

/-- Observable effects of an operation, in the order they occur. -/
inductive Effect
  | debug (msg : String)
  | shardEmit (e : ShardEv)
  | mgrRaw (pk : Payload)
  | mgrShardError (shardId : Nat)
  | mgrShardReconnecting (shardId : Nat)
  | mgrInvalidated
  | bucketAdmit (pk : Payload) (prioritized : Bool)
  | unsentQueued (pk : Payload) (prioritized : Bool)
  | wsCloseCall
  | wsConnect
  | helloTimerStart
  | helloTimerClear
  | readyTimerStart
  | readyTimerClear
  | heartbeatTimerStart (ms : Nat)
  | heartbeatTimerClear
  | reconnectRequested (skipLimit : Bool)
deriving DecidableEq, Repr

/-- Heartbeat state (src/src/lib/connection/Heartbeat.ts lines 12-55). -/
structure HeartbeatState where
  acked : Bool := false
  last : Nat := 0
  interval : Option Nat := none
  latency : Nat := 0
  timer : Bool := false
deriving DecidableEq, Repr

/-- Session state (src/unnamed/part_004: `Session`). -/
structure SessionState where
  id : Option String := none
  helloTimeout : Bool := false
deriving DecidableEq, Repr

/-- Shard state (Shard.ts lines 19-130).  The rate-limit bucket is the
list of admitted payloads in execution order (head next); the unsent
queue holds payloads waiting for the socket to open. -/
structure ShardState where
  id : Nat
  status : Status := Status.Idle
  seq : Int := -1
  closingSeq : Int := 0
  queue : List Payload := []
  bucket : List (Payload × Bool) := []
  ws : Option WsState := none
  expectingGuilds : Option (List String) := none
  readyTimeout : Bool := false
  connectedAt : Nat := 0
  heartbeat : HeartbeatState := {}
  session : SessionState := {}
deriving DecidableEq, Repr

/-- The manager configuration the session and shard operations read
(token write-once cell and options). -/
structure ManagerCfg where
  token : String := "TOKEN"
  shardCount : Nat := 1
  intents : Nat := 0
deriving DecidableEq, Repr

/-- `destroy` options (Shard.ts lines 429-434).  A caller-supplied object
literal leaves unmentioned fields undefined, hence falsy; the source-level
default argument used when `destroy()` is called with no argument at all is
`DestroyOptions.defaultArg`. -/
structure DestroyOptions where
  code : Option Nat := none
  reset : Bool := false
  emit : Bool := false
  log : Bool := false
deriving DecidableEq, Repr

/-- The default parameter of `Shard.destroy`
(`{ code: 1000, emit: true, log: true, reset: false }`). -/
def DestroyOptions.defaultArg : DestroyOptions :=
  { code := some 1000, reset := false, emit := true, log := true }

/-! ## Shard operations (src/src/lib/Shard.ts) -/

/-- The `connected` getter (Shard.ts lines 156-160):
`status === Ready || (!!ws && ws.readyState === OPEN)`. -/
def Shard.connectedB (st : ShardState) : Bool :=
  st.status == Status.Ready ||
    (match st.ws with
     | some w => w == WsState.OPEN
     | none => false)

/-- `Shard.send` (Shard.ts lines 167-175): when connected, enqueue the
encoded send into the rate-limit bucket (head if prioritized, else tail);
otherwise push onto the unsent queue (head if prioritized, else tail). -/
def Shard.send (st : ShardState) (data : Payload) (prioritized : Bool) :
    ShardState × List Effect :=
  if Shard.connectedB st then
    ({ st with bucket :=
        if prioritized then (data, prioritized) :: st.bucket
        else st.bucket ++ [(data, prioritized)] },
     [Effect.bucketAdmit data prioritized])
  else
    ({ st with queue :=
        if prioritized then data :: st.queue else st.queue ++ [data] },
     [Effect.unsentQueued data prioritized])

/-- `Heartbeat.reset` (Heartbeat.ts lines 70-79). -/
def Heartbeat.reset (h : HeartbeatState) : HeartbeatState × List Effect :=
  ({ h with acked := false, last := 0, interval := none, timer := false },
   if h.timer then [Effect.heartbeatTimerClear] else [])

/-- `Heartbeat.ack` (Heartbeat.ts lines 84-90). -/
def Heartbeat.ack (h : HeartbeatState) (now : Nat) : HeartbeatState × List Effect :=
  ({ h with acked := true, latency := now - h.last },
   [Effect.debug "Gateway acknowledged our heartbeat"])

/-- `Session.reset` (part_004 lines 45-52). -/
def Session.reset (s : SessionState) : SessionState × List Effect :=
  ({ id := none, helloTimeout := false },
   if s.helloTimeout then [Effect.helloTimerClear] else [])

/-- `Shard.destroy` (Shard.ts lines 180-216): reset the heartbeat; close
the socket if any (emitting `Destroyed` when it was not cleanly OPEN and
`emit` is set, or when no socket exists and `emit` is set); drop the
socket handle; status becomes Disconnected; persist `closingSeq` when
`seq` is live; reset the session when `reset`; replace the bucket. -/
def Shard.destroy (st : ShardState) (o : DestroyOptions) : ShardState × List Effect :=
  let fx0 := if o.log then [Effect.debug "Destroying..."] else []
  let rH := Heartbeat.reset st.heartbeat
  let st1 := { st with heartbeat := rH.1 }
  let fxW :=
    match st1.ws with
    | some w =>
      if w == WsState.OPEN then [Effect.wsCloseCall]
      else
        [Effect.debug "WebSocket State: not open", Effect.wsCloseCall]
          ++ (if o.emit then [Effect.shardEmit ShardEv.Destroyed] else [])
    | none => if o.emit then [Effect.shardEmit ShardEv.Destroyed] else []
  let st2 := { st1 with ws := none, status := Status.Disconnected }
  let st3 := if st2.seq != -1 then { st2 with closingSeq := st2.seq } else st2
  let rS :=
    if o.reset then
      (({ st3 with session := (Session.reset st3.session).1 } : ShardState),
       (Session.reset st3.session).2)
    else (st3, ([] : List Effect))
  ({ rS.1 with bucket := [] }, fx0 ++ rH.2 ++ fxW ++ rS.2)

/-- The tolerant statuses of the heartbeat missed-ack policy
(Heartbeat.ts lines 99-103). -/
def tolerantStatuses : List Status :=
  [Status.WaitingForGuilds, Status.Identifying, Status.Resuming]

/-- `Heartbeat.new` (Heartbeat.ts lines 97-125).  `ignoreArg = none` is a
call that lets the default parameter compute `ignore` from the shard
status.  If the last heartbeat was not acked and `ignore` is false, the
connection is a zombie: destroy with `{ code: 4009, reset: true }` (the
other two option fields are left undefined by the source, hence falsy) and
send nothing.  Otherwise send a Heartbeat op with the current sequence,
clear `acked` and stamp `last`. -/
def Heartbeat.new (st : ShardState) (ignoreArg : Option Bool) (now : Nat) :
    ShardState × List Effect :=
  let ignore := ignoreArg.getD (tolerantStatuses.contains st.status)
  if !ignore && !st.heartbeat.acked then
    let r := Shard.destroy st { code := some 4009, reset := true }
    (r.1,
     [Effect.debug "Did not receive a heartbeat last time. Assuming zombie connection, destroying and reconnecting.",
      Effect.debug "Zombie Connection"] ++ r.2)
  else
    let fx0 :=
      if ignore && !st.heartbeat.acked then
        [Effect.debug "Did not process last heartbeat ack yet but we are still connected. Sending one now..."]
      else []
    let r := Shard.send st { op := opHeartbeat, d := PayloadData.seqD st.seq } false
    ({ r.1 with heartbeat := { r.1.heartbeat with acked := false, last := now } },
     fx0 ++ [Effect.debug "Sending a heartbeat to the gateway."] ++ r.2)

/-- The `heartbeatInterval` setter plus `_init`
(Heartbeat.ts lines 62-65, 145-152). -/
def Heartbeat.setHeartbeatInterval (st : ShardState) (ms : Nat) :
    ShardState × List Effect :=
  ({ st with heartbeat := { st.heartbeat with interval := some ms, timer := true } },
   [Effect.debug "Now sending a heartbeat every interval", Effect.heartbeatTimerStart ms])

/-! ## Session operations (src/unnamed/part_004) -/

/-- `Session.waitForHello` (part_004 lines 57-64): arm the hello timer.
(The debug string in the source says 30s while the constant is 300000 ms.) -/
def Session.waitForHello (st : ShardState) : ShardState × List Effect :=
  ({ st with session := { st.session with helloTimeout := true } },
   [Effect.debug "Setting the hello timeout for 30s", Effect.helloTimerStart])

/-- The body of the hello timer (part_004 lines 59-63): destroy with
`{ reset: true, code: 4000 }`. -/
def Session.helloTimeoutFire (st : ShardState) : ShardState × List Effect :=
  let st0 := { st with session := { st.session with helloTimeout := false } }
  let r := Shard.destroy st0 { reset := true, code := some 4000 }
  (r.1,
   [Effect.debug "Did not receive HELLO op in time. Destroying and reconnecting."] ++ r.2)

/-- `Session.new` (part_004 lines 87-104): requires a token; sends op 2
with `{ token, properties, shard: [id, shardCount], intents }`,
prioritized. -/
def Session.new (cfg : ManagerCfg) (st : ShardState) : ShardState × List Effect :=
  if cfg.token == "" then (st, [Effect.debug "No token available."])
  else
    let d := PayloadData.identifyD cfg.token st.id cfg.shardCount cfg.intents
    let r := Shard.send st { op := opIdentify, d := d } true
    (r.1, [Effect.debug "Identifying as a new session..."] ++ r.2)

/-- `Session.resume` (part_004 lines 109-126): with no session id fall back
to `new`; otherwise set status Resuming and send op 6 with
`{ token, sequence: closingSequence, session_id }`, prioritized. -/
def Session.resume (cfg : ManagerCfg) (st : ShardState) : ShardState × List Effect :=
  match st.session.id with
  | none =>
    let r := Session.new cfg st
    (r.1, [Effect.debug "No session id; Identifying as a new session."] ++ r.2)
  | some sid =>
    let st1 := { st with status := Status.Resuming }
    let d := PayloadData.resumeD cfg.token st1.closingSeq sid
    let r := Shard.send st1 { op := opResume, d := d } true
    (r.1, [Effect.debug "Resuming session"] ++ r.2)

/-- `Session.identify` (part_004 lines 79-83): resume iff a session id is
present, else identify anew. -/
def Session.identify (cfg : ManagerCfg) (st : ShardState) : ShardState × List Effect :=
  match st.session.id with
  | some _ => Session.resume cfg st
  | none => Session.new cfg st

/-- `Session.hello` (part_004 lines 69-76): clear the hello timer and
identify. -/
def Session.hello (cfg : ManagerCfg) (st : ShardState) : ShardState × List Effect :=
  let r0 :=
    if st.session.helloTimeout then
      (({ st with session := { st.session with helloTimeout := false } } : ShardState),
       [Effect.helloTimerClear])
    else (st, ([] : List Effect))
  let r1 := Session.identify cfg r0.1
  (r1.1, r0.2 ++ r1.2)

/-! ## Shard state machine (src/src/lib/Shard.ts continued) -/

/-- `Shard._checkReady` (Shard.ts lines 346-364): clear any pending ready
timer; when no guilds are awaited (`!this.expectingGuilds?.size`), mark
Ready and emit `FullReady` with no argument; otherwise arm the 15 s ready
timer. -/
def Shard.checkReady (st : ShardState) : ShardState × List Effect :=
  let r0 :=
    if st.readyTimeout then
      (({ st with readyTimeout := false } : ShardState), [Effect.readyTimerClear])
    else (st, ([] : List Effect))
  let empty :=
    match r0.1.expectingGuilds with
    | none => true
    | some g => g.isEmpty
  if empty then
    ({ r0.1 with status := Status.Ready },
     r0.2 ++ [Effect.debug "Shard has received all guilds. Marking as full-ready.",
              Effect.shardEmit (ShardEv.FullReady none)])
  else
    ({ r0.1 with readyTimeout := true }, r0.2 ++ [Effect.readyTimerStart])

/-- The body of the 15 s ready timer (Shard.ts lines 358-363): mark Ready
and emit `FullReady` carrying the still-missing guild-id set. -/
def Shard.readyTimeoutFire (st : ShardState) : ShardState × List Effect :=
  ({ st with status := Status.Ready, readyTimeout := false },
   [Effect.debug "Shard did not receive any more guild packets within 15 seconds.",
    Effect.shardEmit (ShardEv.FullReady st.expectingGuilds)])

/-- The `switch (pk.t)` section of `Shard._packet`
(Shard.ts lines 282-300): READY stores the session id, sets
WaitingForGuilds, builds `expectingGuilds` from the guild ids (a JS `Set`,
modelled by `eraseDups`), marks the heartbeat acked and sends a heartbeat;
RESUMED sets Connected and does the same. -/
def Shard.packetEventBranch (st : ShardState) (pk : Payload) (now : Nat) :
    ShardState × List Effect :=
  if pk.t == some "READY" then
    let stA := { st with
      session := { st.session with id := pk.d.sessionId },
      status := Status.WaitingForGuilds,
      expectingGuilds := some pk.d.guildIds.eraseDups,
      heartbeat := { st.heartbeat with acked := true } }
    let rB := Heartbeat.new stA none now
    (rB.1, [Effect.shardEmit ShardEv.Ready] ++ rB.2)
  else if pk.t == some "RESUMED" then
    let stA := { st with
      status := Status.Connected,
      heartbeat := { st.heartbeat with acked := true } }
    let rB := Heartbeat.new stA none now
    (rB.1, [Effect.shardEmit ShardEv.Resumed] ++ rB.2)
  else (st, [])

/-- The sequence-update section of `Shard._packet`
(Shard.ts lines 303-306): for a non-null `s`, warn on a jump and store
`seq := s` unconditionally. -/
def Shard.packetSeqUpdate (st : ShardState) (pk : Payload) :
    ShardState × List Effect :=
  match pk.s with
  | some sv =>
    let warn :=
      if st.seq != -1 && sv > st.seq + 1 then
        [Effect.debug "Non-consecutive sequence"]
      else []
    ({ st with seq := sv }, warn)
  | none => (st, [])

/-- The `switch (pk.op)` section of `Shard._packet`
(Shard.ts lines 308-339). -/
def Shard.packetOpBranch (cfg : ManagerCfg) (st : ShardState) (pk : Payload)
    (now : Nat) : ShardState × List Effect :=
  if pk.op == opHello then
    let rA := Heartbeat.setHeartbeatInterval st pk.d.helloInterval
    let rB := Session.hello cfg rA.1
    (rB.1, rA.2 ++ rB.2)
  else if pk.op == opReconnect then
    let rA := Shard.destroy st { code := some 4000 }
    (rA.1, [Effect.debug "Gateway asked us to reconnect."] ++ rA.2)
  else if pk.op == opInvalidSession then
    if pk.d.truthy then
      let rA := Session.resume cfg st
      (rA.1, [Effect.debug "Invalid Session"] ++ rA.2)
    else
      let stA := { st with seq := -1 }
      let rS := Session.reset stA.session
      ({ stA with session := rS.1 },
       [Effect.debug "Invalid Session"] ++ rS.2
         ++ [Effect.shardEmit ShardEv.InvalidSession])
  else if pk.op == opHeartbeat then
    Heartbeat.new st (some true) now
  else if pk.op == opHeartbeatAck then
    let rA := Heartbeat.ack st.heartbeat now
    ({ st with heartbeat := rA.1 }, rA.2)
  else
    if st.status == Status.WaitingForGuilds && pk.t == some "GUILD_CREATE" then
      let stA := { st with expectingGuilds :=
        st.expectingGuilds.map (fun g =>
          match pk.d.guildId with
          | some gid => g.erase gid
          | none => g) }
      Shard.checkReady stA
    else (st, [])

/-- `Shard._packet` (Shard.ts lines 272-340) on an already-decoded
payload: forward the raw packet to the manager, run the `t` switch, the
sequence update and the `op` switch, in source order. -/
def Shard.packet (cfg : ManagerCfg) (st : ShardState) (pk : Payload) (now : Nat) :
    ShardState × List Effect :=
  let r1 := Shard.packetEventBranch st pk now
  let r2 := Shard.packetSeqUpdate r1.1 pk
  let r3 := Shard.packetOpBranch cfg r2.1 pk now
  (r3.1, [Effect.mgrRaw pk] ++ r1.2 ++ r2.2 ++ r3.2)

/-- The unsent-queue drain loop of `Shard._open` (Shard.ts lines 374-381):
shift and `send` until the queue is empty.  With an OPEN socket each send
is admitted to the bucket and the queue only shrinks, so its initial
length is enough fuel. -/
def Shard.drain : Nat → ShardState → ShardState × List Effect
  | 0, st => (st, [])
  | Nat.succ fuel, st =>
    match st.queue with
    | [] => (st, [])
    | pk :: rest =>
      let r1 := Shard.send { st with queue := rest } pk false
      let r2 := Shard.drain fuel r1.1
      (r2.1, r1.2 ++ r2.2)

/-- `Shard._open` (Shard.ts lines 370-384): the socket is now OPEN; status
becomes Nearly and any unsent payloads are drained. -/
def Shard.wsOpen (st : ShardState) : ShardState × List Effect :=
  let st1 := { st with ws := some WsState.OPEN, status := Status.Nearly }
  let fx0 := [Effect.debug "Connected."]
  let r1 :=
    if st1.queue.isEmpty then (st1, ([] : List Effect))
    else
      let rD := Shard.drain st1.queue.length st1
      (rD.1, [Effect.debug "packets waiting... sending all now."] ++ rD.2)
  (r1.1, fx0 ++ r1.2)

/-- `Shard._close` (Shard.ts lines 400-409): the socket has moved to
CLOSED; persist `closingSeq` when `seq` is live, reset `seq`, status
Disconnected, reset the heartbeat and emit the close event. -/
def Shard.wsClose (st : ShardState) (code : Nat) : ShardState × List Effect :=
  let st0 := { st with ws := st.ws.map (fun _ => WsState.CLOSED) }
  let st1 := { st0 with
    closingSeq := if st0.seq != -1 then st0.seq else st0.closingSeq,
    seq := -1,
    status := Status.Disconnected }
  let rH := Heartbeat.reset st1.heartbeat
  ({ st1 with heartbeat := rH.1 },
   [Effect.debug "close"] ++ rH.2 ++ [Effect.shardEmit (ShardEv.Close code)])

/-- `Shard.connect` (Shard.ts lines 221-265): if already connected, just
identify; otherwise destroy any stale socket (with the full default
options), set Connecting or Reconnecting, arm the hello timer and open a
new socket. -/
def Shard.connect (cfg : ManagerCfg) (st : ShardState) (now : Nat) :
    ShardState × List Effect :=
  if Shard.connectedB st then
    let r := Session.identify cfg st
    (r.1, [Effect.debug "A connection is already present, attempting to identify."] ++ r.2)
  else
    let r1 :=
      if st.ws.isSome then
        let rD := Shard.destroy st DestroyOptions.defaultArg
        (rD.1, [Effect.debug "A connection is already present, cleaning up before reconnecting."] ++ rD.2)
      else (st, ([] : List Effect))
    let st2 := { r1.1 with
      status := if r1.1.status == Status.Disconnected then Status.Reconnecting
                else Status.Connecting,
      connectedAt := now }
    let r2 := Session.waitForHello st2
    ({ r2.1 with ws := some WsState.CONNECTING }, r1.2 ++ r2.2 ++ [Effect.wsConnect])

/-- The decompressor error listener installed by `Shard.connect`
(Shard.ts line 244): `(e) => this._debug(...)` — the error is only logged
as a debug message; no state changes, no destroy, no reconnect. -/
def Shard.onCompressionError (st : ShardState) (msg : String) : ShardState × List Effect :=
  (st, [Effect.debug ("Compression Error: " ++ msg)])

/-! ## Supervisor (src/src/lib/Manager.ts) -/

/-- Supervisor state: the `destroyed` terminal flag, the `reconnecting`
guard, the `ready` latch, the connect queue of shard ids (a JS `Set`:
ordered, unique) and the shard table. -/
structure ManagerState where
  destroyed : Bool := false
  reconnecting : Bool := false
  ready : Bool := false
  queue : List Nat := []
  shards : List ShardState := []
deriving DecidableEq, Repr

/-- `InternalShardingManager.destroy` (Manager.ts lines 127-142).  The
source guard is `if (!this.destroyed) return;` — the body (clear the
queue, set the flag, cancel every shard with
`{ reset: true, emit: false, log: false, code: 1000 }`) runs only when the
manager is ALREADY destroyed, which nothing else ever makes true. -/
def ISM.destroy (m : ManagerState) : ManagerState × List Effect :=
  if !m.destroyed then (m, [])
  else
    let fx0 := [Effect.debug "Destroying..."]
    let m1 := { m with queue := [], destroyed := true }
    let results := m1.shards.map (fun sh =>
      Shard.destroy sh { reset := true, emit := false, log := false, code := some 1000 })
    ({ m1 with shards := results.map Prod.fst },
     fx0 ++ (results.map Prod.snd).flatten)

/-- The supervisor's per-shard Close listener (Manager.ts lines 226-246):
if the close is fatal (`closeIsFatal`), surface `ShardError` and stop;
otherwise reset the session for un-resumable codes, emit
`ShardReconnecting`, re-add the shard to the connect queue, and either
reconnect immediately (skipping the identify quota) when a session id is
present, or destroy-with-reset and reconnect through the quota path. -/
def ISM.onShardClose (m : ManagerState) (st : ShardState) (code : Nat) :
    ManagerState × ShardState × List Effect :=
  if closeIsFatal m.destroyed code then
    (m, st, [Effect.mgrShardError st.id, Effect.debug "Close Reason"])
  else
    let r1 :=
      if unResumableIncludes code then
        (({ st with session := (Session.reset st.session).1 } : ShardState),
         (Session.reset st.session).2)
      else (st, ([] : List Effect))
    let m1 := { m with queue :=
      if m.queue.contains r1.1.id then m.queue else m.queue ++ [r1.1.id] }
    if r1.1.session.id.isSome then
      (m1, r1.1,
       r1.2 ++ [Effect.mgrShardReconnecting r1.1.id,
                Effect.debug "session id is present, attempting to reconnect.",
                Effect.reconnectRequested true])
    else
      let r2 := Shard.destroy r1.1 { reset := true, emit := false, log := false }
      (m1, r2.1,
       r1.2 ++ [Effect.mgrShardReconnecting r1.1.id] ++ r2.2
         ++ [Effect.reconnectRequested false])

/-! ## System steps

One tracked shard plus the supervisor.  Every entry point that can mutate
shard state is an operation: the caller-facing methods, the WebSocket
callbacks (`wsClose` also runs the supervisor's Close listener), the three
timer bodies, and the decompressor error listener.  The supervisor's
`destroy` reaches shard state only through `Shard.destroy`, which the
`destroy` operation covers with arbitrary options. -/

structure SysState where
  mgr : ManagerState
  shard : ShardState
deriving DecidableEq, Repr

inductive Op
  | connect (now : Nat)
  | wsOpen
  | wsClose (code : Nat)
  | packet (pk : Payload) (now : Nat)
  | send (pk : Payload) (prioritized : Bool)
  | destroy (o : DestroyOptions)
  | heartbeatTick (now : Nat)
  | helloTimeoutFire
  | readyTimeoutFire
  | compressionError (msg : String)
deriving Repr

/-- One system step. -/
def sysStep (cfg : ManagerCfg) (s : SysState) : Op → SysState × List Effect
  | Op.connect now =>
    let r := Shard.connect cfg s.shard now
    ({ s with shard := r.1 }, r.2)
  | Op.wsOpen =>
    let r := Shard.wsOpen s.shard
    ({ s with shard := r.1 }, r.2)
  | Op.wsClose code =>
    let r1 := Shard.wsClose s.shard code
    let r2 := ISM.onShardClose s.mgr r1.1 code
    (⟨r2.1, r2.2.1⟩, r1.2 ++ r2.2.2)
  | Op.packet pk now =>
    let r := Shard.packet cfg s.shard pk now
    ({ s with shard := r.1 }, r.2)
  | Op.send pk p =>
    let r := Shard.send s.shard pk p
    ({ s with shard := r.1 }, r.2)
  | Op.destroy o =>
    let r := Shard.destroy s.shard o
    ({ s with shard := r.1 }, r.2)
  | Op.heartbeatTick now =>
    let r := Heartbeat.new s.shard none now
    ({ s with shard := r.1 }, r.2)
  | Op.helloTimeoutFire =>
    let r := Session.helloTimeoutFire s.shard
    ({ s with shard := r.1 }, r.2)
  | Op.readyTimeoutFire =>
    let r := Shard.readyTimeoutFire s.shard
    ({ s with shard := r.1 }, r.2)
  | Op.compressionError msg =>
    let r := Shard.onCompressionError s.shard msg
    ({ s with shard := r.1 }, r.2)

/-- Runs a sequence of operations, discarding effects. -/
def sysRun (cfg : ManagerCfg) (s : SysState) : List Op → SysState
  | [] => s
  | op :: rest => sysRun cfg (sysStep cfg s op).1 rest

/-- A freshly constructed shard (Shard.ts constructor, lines 113-130). -/
def initialShard (id : Nat) : ShardState := { id := id }

/-- The initial system: a fresh supervisor tracking shard 0. -/
def initialSys : SysState := ⟨{}, initialShard 0⟩

/-! ## Shared helper lemmas -/

theorem Shard.send_status (st : ShardState) (d : Payload) (p : Bool) :
    (Shard.send st d p).1.status = st.status := by
  unfold Shard.send
  split <;> rfl

theorem Shard.send_seq (st : ShardState) (d : Payload) (p : Bool) :
    (Shard.send st d p).1.seq = st.seq := by
  unfold Shard.send
  split <;> rfl

theorem Shard.send_session (st : ShardState) (d : Payload) (p : Bool) :
    (Shard.send st d p).1.session = st.session := by
  unfold Shard.send
  split <;> rfl

theorem Shard.destroy_status (st : ShardState) (o : DestroyOptions) :
    (Shard.destroy st o).1.status = Status.Disconnected := by
  unfold Shard.destroy Heartbeat.reset Session.reset
  dsimp only
  repeat' split
  all_goals rfl

theorem Shard.destroy_seq (st : ShardState) (o : DestroyOptions) :
    (Shard.destroy st o).1.seq = st.seq := by
  unfold Shard.destroy Heartbeat.reset Session.reset
  dsimp only
  repeat' split
  all_goals rfl

theorem Shard.destroy_no_send (st : ShardState) (o : DestroyOptions)
    (pk : Payload) (p : Bool) :
    Effect.bucketAdmit pk p ∉ (Shard.destroy st o).2 ∧
      Effect.unsentQueued pk p ∉ (Shard.destroy st o).2 := by
  unfold Shard.destroy Heartbeat.reset Session.reset
  dsimp only
  repeat' split
  all_goals simp

theorem Heartbeat.new_seq (st : ShardState) (ig : Option Bool) (now : Nat) :
    (Heartbeat.new st ig now).1.seq = st.seq := by
  unfold Heartbeat.new
  dsimp only
  split
  · simp [Shard.destroy_seq]
  · simp [Shard.send_seq]

theorem Heartbeat.new_acked_true (st : ShardState) (ig : Option Bool) (now : Nat)
    (h : st.heartbeat.acked = true) :
    Heartbeat.new st ig now =
      (let r := Shard.send st { op := opHeartbeat, d := PayloadData.seqD st.seq } false
       ({ r.1 with heartbeat := { r.1.heartbeat with acked := false, last := now } },
        [Effect.debug "Sending a heartbeat to the gateway."] ++ r.2)) := by
  unfold Heartbeat.new
  simp [h]

theorem Shard.checkReady_seq (st : ShardState) :
    (Shard.checkReady st).1.seq = st.seq := by
  unfold Shard.checkReady
  dsimp only
  repeat' split
  all_goals rfl

theorem Shard.checkReady_status (st : ShardState) :
    (Shard.checkReady st).1.status = Status.Ready ∨
      (Shard.checkReady st).1.status = st.status := by
  unfold Shard.checkReady
  dsimp only
  repeat' split
  all_goals simp

/-! ## C1 — close-code recovery policy -/

/-- C1: evaluation of the close-code policy the code actually implements.
`Object.values(GatewayCloseCode).slice(1)` drops the reverse-mapping
string "UnknownError", not the number 4000, so the numeric members of
`unrecoverable` are ALL of 4000-4005 and 4007-4014: closes with code 4000
(UnknownError) or 4007 (InvalidSeq) are treated as unrecoverable — the
supervisor surfaces `ShardError` and does not re-enqueue the shard —
whereas the claim (and the code's own hello-timeout and Reconnect-op
handling, which destroy with code 4000 expecting a reconnect) says they
are reconnectable.  On the remaining codes the code and the claimed set
agree. -/
theorem c1_unrecoverable_includes_baseline_codes :
    closeIsFatal false 4000 = true ∧ closeIsFatal false 4007 = true
      ∧ specUnrecoverable 4000 = false ∧ specUnrecoverable 4007 = false
      ∧ ([4001, 4002, 4003, 4004, 4005, 4008, 4009, 4010, 4011, 4012, 4013, 4014].all
          (fun c => closeIsFatal false c && specUnrecoverable c) = true)
      ∧ ([1001, 1005, 1006, 4006, 4015].all
          (fun c => !closeIsFatal false c && !specUnrecoverable c) = true)
      ∧ (ISM.onShardClose {} (initialShard 0) 4000).1.queue = []
      ∧ (ISM.onShardClose {} (initialShard 0) 4000).2.2
          = [Effect.mgrShardError 0, Effect.debug "Close Reason"] := by
  decide

/-! ## C2 — supervisor destroy -/

/-- C2: `InternalShardingManager.destroy` begins with
`if (!this.destroyed) return;`, so on a manager whose `destroyed` flag is
false (every manager, since the flag is only assigned inside the guarded
body) the call returns immediately: the connect queue is kept, the flag
stays false, and no shard is cancelled — the claimed first-call teardown
never happens. -/
theorem c2_destroy_never_runs :
    ISM.destroy { destroyed := false, queue := [0], shards := [initialShard 0] }
      = ({ destroyed := false, queue := [0], shards := [initialShard 0] }, []) := by
  rfl

/-! ## C5 — decompression errors -/

/-- C5 counterexample: the decompressor error listener only emits a debug
message.  On a live shard (status Nearly, socket OPEN) the state is
unchanged — in particular the shard is NOT destroyed (status is not
Disconnected, no socket close, no `Destroyed` emission), refuting the
claim that a decompression error is treated as a fatal shard error with a
destroy-and-reconnect. -/
theorem c5_counterexample :
    (Shard.onCompressionError
        { initialShard 0 with status := Status.Nearly, ws := some WsState.OPEN }
        "unexpected end of stream").1
      = { initialShard 0 with status := Status.Nearly, ws := some WsState.OPEN }
    ∧ (Shard.onCompressionError
        { initialShard 0 with status := Status.Nearly, ws := some WsState.OPEN }
        "unexpected end of stream").2
      = [Effect.debug "Compression Error: unexpected end of stream"]
    ∧ ¬ (Shard.onCompressionError
        { initialShard 0 with status := Status.Nearly, ws := some WsState.OPEN }
        "unexpected end of stream").1.status = Status.Disconnected := by
  refine ⟨rfl, rfl, by decide⟩

/-- C5 amended: for every error emitted by the decompression component the
shard only logs a debug message; the shard state (status, socket, session,
everything) is unchanged and the connection continues. -/
theorem c5_amended (st : ShardState) (msg : String) :
    Shard.onCompressionError st msg
      = (st, [Effect.debug ("Compression Error: " ++ msg)]) := by
  rfl

/-! ## C6 — decompression message boundaries -/

/-- C6 counterexample: `[1, 0, 0, 255, 255]` is a single logical message
ending with the sync-flush suffix `00 00 FF FF`; delivered as one `add`
call it is emitted exactly once, but under the partition
`[[1, 0, 0, 255], [255]]` — a chunk boundary splitting the suffix — the
decompressor emits NOTHING (the suffix test looks only at the trailing
four bytes of each chunk), refuting chunking-independence. -/
theorem c6_counterexample :
    bufEndsWithFlushSuffix [1, 0, 0, 255, 255] = true
      ∧ (Zlib.runAdds Zlib.initState [[1, 0, 0, 255, 255]]).2 = [[1, 0, 0, 255, 255]]
      ∧ (Zlib.runAdds Zlib.initState [[1, 0, 0, 255], [255]]).2 = [] := by
  decide

/-- C6 amended: for every sequence of `add` chunks, the decompressor emits
exactly one data buffer per chunk whose final four bytes are
`00 00 FF FF`, in input order, each consisting of the concatenation of all
chunks since the previous emission.  Hence each logical message is emitted
exactly once, in order, precisely when every message boundary coincides
with the end of an `add` chunk (and no other chunk ends with the suffix
bytes); a boundary that splits the suffix defers the emission and merges
messages. -/
theorem c6_amended (cs : List (List Nat)) :
    (Zlib.runAdds Zlib.initState cs).2 = zlibExpectedEmissions cs [] :=
  Zlib.runAdds_emissions cs []

/-! ## C9 — send while not OPEN -/

/-- C9 counterexample: with status Ready but the socket CLOSED (and also
with the socket handle absent), the `connected` getter is still true, so
`send` admits the payload to the rate-limit bucket instead of appending it
to the unsent queue — refuting the claim for exactly the case it calls
out. -/
theorem c9_counterexample :
    (Shard.send { initialShard 0 with status := Status.Ready, ws := some WsState.CLOSED }
        { op := 3 } false).1.queue = []
    ∧ (Shard.send { initialShard 0 with status := Status.Ready, ws := some WsState.CLOSED }
        { op := 3 } false).1.bucket = [({ op := 3 }, false)]
    ∧ (Shard.send { initialShard 0 with status := Status.Ready, ws := some WsState.CLOSED }
        { op := 3 } false).2 = [Effect.bucketAdmit { op := 3 } false]
    ∧ (Shard.send { initialShard 0 with status := Status.Ready, ws := none }
        { op := 3 } false).1.queue = [] := by
  decide

/-- C9 amended: `send` enqueues to the unsent queue (head if prioritized,
else tail) and admits nothing to the bucket exactly when the `connected`
getter is false, i.e. when status is not Ready AND the socket is absent or
not OPEN; when status is Ready the payload is admitted to the bucket even
if the socket is closed or absent. -/
theorem c9_amended (st : ShardState) (data : Payload) (p : Bool) :
    (Shard.connectedB st = false →
      Shard.send st data p
        = ({ st with queue := if p then data :: st.queue else st.queue ++ [data] },
           [Effect.unsentQueued data p]))
    ∧ (st.status = Status.Ready →
      Shard.send st data p
        = ({ st with bucket := if p then (data, p) :: st.bucket
                               else st.bucket ++ [(data, p)] },
           [Effect.bucketAdmit data p])) := by
  constructor
  · intro h
    unfold Shard.send
    simp [h]
  · intro h
    unfold Shard.send
    simp [Shard.connectedB, h]

/-- C9 amended, witnessed at concrete inputs: a disconnected shard
(status Idle, no socket) enqueues, and a Ready shard with a CLOSED socket
admits to the bucket. -/
theorem c9_amended_witness :
    Shard.send (initialShard 0) { op := 3 } false
      = ({ initialShard 0 with queue := [{ op := 3 }] },
         [Effect.unsentQueued { op := 3 } false])
    ∧ Shard.send { initialShard 0 with status := Status.Ready, ws := some WsState.CLOSED }
        { op := 3 } false
      = ({ initialShard 0 with
           status := Status.Ready,
           ws := some WsState.CLOSED,
           bucket := [({ op := 3 }, false)] },
         [Effect.bucketAdmit { op := 3 } false]) :=
  ⟨(c9_amended (initialShard 0) { op := 3 } false).1 (by decide),
   (c9_amended { initialShard 0 with status := Status.Ready, ws := some WsState.CLOSED }
      { op := 3 } false).2 rfl⟩

/-! ## C3 — sequence tracking -/

theorem Shard.packetEventBranch_seq (st : ShardState) (pk : Payload) (now : Nat) :
    (Shard.packetEventBranch st pk now).1.seq = st.seq := by
  unfold Shard.packetEventBranch
  dsimp only
  repeat' split
  all_goals simp [Heartbeat.new_seq]

theorem Shard.packetSeqUpdate_seq (st : ShardState) (pk : Payload) :
    (Shard.packetSeqUpdate st pk).1.seq
      = (match pk.s with | some v => v | none => st.seq) := by
  unfold Shard.packetSeqUpdate
  cases pk.s <;> rfl

theorem Shard.packetOpBranch_dispatch_seq (cfg : ManagerCfg) (st : ShardState)
    (pk : Payload) (now : Nat) (h : pk.op = opDispatch) :
    (Shard.packetOpBranch cfg st pk now).1.seq = st.seq := by
  unfold Shard.packetOpBranch
  simp only [h, opDispatch, opHello, opReconnect, opInvalidSession, opHeartbeat,
    opHeartbeatAck, show ((0 : Nat) == 10) = false from rfl,
    show ((0 : Nat) == 7) = false from rfl, show ((0 : Nat) == 9) = false from rfl,
    show ((0 : Nat) == 1) = false from rfl, show ((0 : Nat) == 11) = false from rfl,
    Bool.false_eq_true, if_false]
  split
  · simp [Shard.checkReady_seq]
  · rfl

/-- Linear fold of `Shard._packet` over a list of inbound payloads, all at
the same timestamp. -/
def runPackets (cfg : ManagerCfg) (now : Nat) (st : ShardState) :
    List Payload → ShardState
  | [] => st
  | pk :: rest => runPackets cfg now (Shard.packet cfg st pk now).1 rest

/-- Modelled from the spec, for comparison: the sequence value actually
stored after a list of payloads — the `s` of the LAST payload carrying a
non-null `s` (starting from `s0`), not the maximum. -/
def lastDispatchSeq : List Payload → Int → Int
  | [], s0 => s0
  | pk :: rest, s0 =>
    lastDispatchSeq rest (match pk.s with | some v => v | none => s0)

/-- C3 counterexample: processing a Dispatch with `s = 5` and then one
with `s = 3` leaves `seq = 3`, not the claimed largest-seen value `5`:
the assignment `this._seq = pk.s` is unconditional, so `seq` decreases. -/
theorem c3_counterexample :
    (Shard.packet {} (initialShard 0) { op := opDispatch, s := some 5 } 0).1.seq = 5
      ∧ (Shard.packet {}
          (Shard.packet {} (initialShard 0) { op := opDispatch, s := some 5 } 0).1
          { op := opDispatch, s := some 3 } 0).1.seq = 3 := by
  decide

/-- C3 amended: within one session, for every sequence of inbound Dispatch
payloads processed by the shard packet handler, the stored `seq` equals
the `s` of the LAST payload with non-null `s` (the assignment is
unconditional); it is not the running maximum and is not monotone. -/
theorem c3_amended (cfg : ManagerCfg) (now : Nat) (st : ShardState)
    (pks : List Payload) (h : ∀ pk ∈ pks, pk.op = opDispatch) :
    (runPackets cfg now st pks).seq = lastDispatchSeq pks st.seq := by
  induction pks generalizing st with
  | nil => rfl
  | cons pk rest ih =>
    have hop : pk.op = opDispatch := h pk (List.mem_cons_self pk rest)
    have hseq : (Shard.packet cfg st pk now).1.seq
        = (match pk.s with | some v => v | none => st.seq) := by
      unfold Shard.packet
      dsimp only
      rw [Shard.packetOpBranch_dispatch_seq _ _ _ _ hop,
        Shard.packetSeqUpdate_seq, Shard.packetEventBranch_seq]
    have hrest : ∀ q ∈ rest, q.op = opDispatch :=
      fun q hq => h q (List.mem_cons_of_mem pk hq)
    unfold runPackets lastDispatchSeq
    rw [ih _ hrest, hseq]

/-- C3 amended, witnessed: the two-payload run from the counterexample,
through the theorem. -/
theorem c3_amended_witness :
    ((∀ pk ∈ [({ op := opDispatch, s := some 5 } : Payload),
              { op := opDispatch, s := some 3 }], pk.op = opDispatch))
      ∧ (runPackets {} 0 (initialShard 0)
          [{ op := opDispatch, s := some 5 }, { op := opDispatch, s := some 3 }]).seq
        = lastDispatchSeq
            [{ op := opDispatch, s := some 5 }, { op := opDispatch, s := some 3 }]
            (initialShard 0).seq :=
  ⟨by decide,
   c3_amended {} 0 (initialShard 0)
     [{ op := opDispatch, s := some 5 }, { op := opDispatch, s := some 3 }]
     (by decide)⟩

/-! ## C4 — ready stabilization -/

theorem Shard.send_expectingGuilds (st : ShardState) (d : Payload) (p : Bool) :
    (Shard.send st d p).1.expectingGuilds = st.expectingGuilds := by
  unfold Shard.send
  split <;> rfl

theorem Shard.send_readyTimeout (st : ShardState) (d : Payload) (p : Bool) :
    (Shard.send st d p).1.readyTimeout = st.readyTimeout := by
  unfold Shard.send
  split <;> rfl

theorem Shard.send_fx (st : ShardState) (d : Payload) (p : Bool) :
    (Shard.send st d p).2 = [Effect.bucketAdmit d p]
      ∨ (Shard.send st d p).2 = [Effect.unsentQueued d p] := by
  unfold Shard.send
  split <;> simp

/-- The state built by the READY branch before the heartbeat send
(Shard.ts lines 286-290). -/
def Shard.readyState (st : ShardState) (sid : Option String) (gs : List String) :
    ShardState :=
  { st with
    session := { st.session with id := sid },
    status := Status.WaitingForGuilds,
    expectingGuilds := some gs.eraseDups,
    heartbeat := { st.heartbeat with acked := true } }

theorem Shard.packetEventBranch_ready (st : ShardState) (sid : Option String)
    (gs : List String) (sv : Option Int) (now : Nat) :
    Shard.packetEventBranch st
        { op := opDispatch, t := some "READY", s := sv, d := PayloadData.readyD sid gs } now
      = (let r := Shard.send (Shard.readyState st sid gs)
           { op := opHeartbeat, d := PayloadData.seqD st.seq } false
         ({ r.1 with heartbeat := { r.1.heartbeat with acked := false, last := now } },
          [Effect.shardEmit ShardEv.Ready,
           Effect.debug "Sending a heartbeat to the gateway."] ++ r.2)) := by
  rfl

/-- C4 counterexample: a READY dispatch carrying an empty guild list.  The
claim says ready-stabilization starts at READY and the shard transitions
to Ready exactly when `expectingGuilds` becomes empty — here it is empty
immediately — yet the code leaves the shard in WaitingForGuilds with no
ready timer armed and no `FullReady` emitted: `_checkReady` only runs on a
later GUILD_CREATE. -/
theorem c4_counterexample :
    (Shard.packet {} { initialShard 0 with status := Status.Nearly, ws := some WsState.OPEN }
        { op := opDispatch, t := some "READY", s := some 1,
          d := PayloadData.readyD (some "sess") [] } 0).1.expectingGuilds = some []
    ∧ (Shard.packet {} { initialShard 0 with status := Status.Nearly, ws := some WsState.OPEN }
        { op := opDispatch, t := some "READY", s := some 1,
          d := PayloadData.readyD (some "sess") [] } 0).1.status
        = Status.WaitingForGuilds
    ∧ ¬ (Shard.packet {} { initialShard 0 with status := Status.Nearly, ws := some WsState.OPEN }
        { op := opDispatch, t := some "READY", s := some 1,
          d := PayloadData.readyD (some "sess") [] } 0).1.status = Status.Ready
    ∧ (Shard.packet {} { initialShard 0 with status := Status.Nearly, ws := some WsState.OPEN }
        { op := opDispatch, t := some "READY", s := some 1,
          d := PayloadData.readyD (some "sess") [] } 0).1.readyTimeout = false
    ∧ Effect.readyTimerStart ∉
        (Shard.packet {} { initialShard 0 with status := Status.Nearly, ws := some WsState.OPEN }
          { op := opDispatch, t := some "READY", s := some 1,
            d := PayloadData.readyD (some "sess") [] } 0).2
    ∧ Effect.shardEmit (ShardEv.FullReady none) ∉
        (Shard.packet {} { initialShard 0 with status := Status.Nearly, ws := some WsState.OPEN }
          { op := opDispatch, t := some "READY", s := some 1,
            d := PayloadData.readyD (some "sess") [] } 0).2 := by
  decide

/-- C4 amended: (1) on Dispatch READY the shard stores `d.session_id`,
enters WaitingForGuilds and builds `expectingGuilds` from `d.guilds[].id`,
but does NOT start the ready-stabilization timer (`readyTimeout` is
unchanged and no timer-start is emitted); (2) the ready evaluation runs
only when a GUILD_CREATE arrives in WaitingForGuilds, as `_checkReady` on
the state with that guild id removed; (3) `_checkReady` marks Ready and
emits `FullReady` (no argument) when no guilds remain, and otherwise
(re)arms the 15 s timer; (4) the timer body marks Ready and emits
`FullReady` with the still-missing guild-id set. -/
theorem c4_amended :
    (∀ (cfg : ManagerCfg) (st : ShardState) (sid : Option String)
        (gs : List String) (sv : Option Int) (now : Nat),
      (Shard.packet cfg st
          { op := opDispatch, t := some "READY", s := sv,
            d := PayloadData.readyD sid gs } now).1.session.id = sid
      ∧ (Shard.packet cfg st
          { op := opDispatch, t := some "READY", s := sv,
            d := PayloadData.readyD sid gs } now).1.status = Status.WaitingForGuilds
      ∧ (Shard.packet cfg st
          { op := opDispatch, t := some "READY", s := sv,
            d := PayloadData.readyD sid gs } now).1.expectingGuilds
          = some gs.eraseDups
      ∧ (Shard.packet cfg st
          { op := opDispatch, t := some "READY", s := sv,
            d := PayloadData.readyD sid gs } now).1.readyTimeout = st.readyTimeout
      ∧ Effect.readyTimerStart ∉
          (Shard.packet cfg st
            { op := opDispatch, t := some "READY", s := sv,
              d := PayloadData.readyD sid gs } now).2)
    ∧ (∀ (cfg : ManagerCfg) (st : ShardState) (gid : String) (now : Nat),
        st.status = Status.WaitingForGuilds →
        Shard.packet cfg st
            { op := opDispatch, t := some "GUILD_CREATE", d := PayloadData.guildD gid } now
          = ((Shard.checkReady
                { st with expectingGuilds := st.expectingGuilds.map (fun g => g.erase gid) }).1,
             Effect.mgrRaw
                 { op := opDispatch, t := some "GUILD_CREATE", d := PayloadData.guildD gid }
               :: (Shard.checkReady
                { st with expectingGuilds := st.expectingGuilds.map (fun g => g.erase gid) }).2))
    ∧ (∀ st : ShardState,
        ((match st.expectingGuilds with | none => true | some g => g.isEmpty) = true →
          (Shard.checkReady st).1.status = Status.Ready
            ∧ Effect.shardEmit (ShardEv.FullReady none) ∈ (Shard.checkReady st).2)
        ∧ ((match st.expectingGuilds with | none => true | some g => g.isEmpty) = false →
          (Shard.checkReady st).1.readyTimeout = true
            ∧ Effect.readyTimerStart ∈ (Shard.checkReady st).2))
    ∧ (∀ st : ShardState,
        (Shard.readyTimeoutFire st).1.status = Status.Ready
          ∧ Effect.shardEmit (ShardEv.FullReady st.expectingGuilds)
              ∈ (Shard.readyTimeoutFire st).2) := by
  refine ⟨?ready, ?guild, ?check, ?fire⟩
  case ready =>
    intro cfg st sid gs sv now
    unfold Shard.packet
    dsimp only
    rw [Shard.packetEventBranch_ready]
    dsimp only
    unfold Shard.packetSeqUpdate Shard.packetOpBranch
    simp only [show (opDispatch == opHello) = false from rfl,
      show (opDispatch == opReconnect) = false from rfl,
      show (opDispatch == opInvalidSession) = false from rfl,
      show (opDispatch == opHeartbeat) = false from rfl,
      show (opDispatch == opHeartbeatAck) = false from rfl,
      show ((some "READY" : Option String) == some "GUILD_CREATE") = false from rfl,
      Bool.false_eq_true, if_false, Bool.and_false]
    rcases Shard.send_fx (Shard.readyState st sid gs)
        { op := opHeartbeat, d := PayloadData.seqD st.seq } false with hfx | hfx <;>
      cases sv <;>
        simp_all [Shard.send_status, Shard.send_session, Shard.send_expectingGuilds,
          Shard.send_readyTimeout, Shard.send_seq, Shard.readyState]
  case guild =>
    intro cfg st gid now h
    unfold Shard.packet Shard.packetEventBranch Shard.packetSeqUpdate Shard.packetOpBranch
    simp only [show ((some "GUILD_CREATE" : Option String) == some "READY") = false from rfl,
      show ((some "GUILD_CREATE" : Option String) == some "RESUMED") = false from rfl,
      show (opDispatch == opHello) = false from rfl,
      show (opDispatch == opReconnect) = false from rfl,
      show (opDispatch == opInvalidSession) = false from rfl,
      show (opDispatch == opHeartbeat) = false from rfl,
      show (opDispatch == opHeartbeatAck) = false from rfl,
      show ((some "GUILD_CREATE" : Option String) == some "GUILD_CREATE") = true from rfl,
      Bool.false_eq_true, if_false, Bool.and_true, h]
    rfl
  case check =>
    intro st
    constructor <;> intro h <;> unfold Shard.checkReady <;>
      by_cases hrt : st.readyTimeout = true <;>
      simp [hrt, h]
  case fire =>
    intro st
    unfold Shard.readyTimeoutFire
    simp

/-- C4 amended, witnessed at concrete inputs: a GUILD_CREATE for "A" while
waiting on guilds A and B re-evaluates via `_checkReady`; a shard with no
remaining guilds goes Ready with `FullReady`, one with a remaining guild
arms the 15 s timer. -/
theorem c4_amended_witness :
    ({ initialShard 0 with
       status := Status.WaitingForGuilds,
       expectingGuilds := some ["A", "B"] } : ShardState).status
        = Status.WaitingForGuilds
    ∧ (Shard.packet {}
         { initialShard 0 with
           status := Status.WaitingForGuilds,
           expectingGuilds := some ["A", "B"] }
         { op := opDispatch, t := some "GUILD_CREATE", d := PayloadData.guildD "A" } 0
       = ((Shard.checkReady
            { initialShard 0 with
              status := Status.WaitingForGuilds,
              expectingGuilds := some ["B"] }).1,
          Effect.mgrRaw
              { op := opDispatch, t := some "GUILD_CREATE", d := PayloadData.guildD "A" }
            :: (Shard.checkReady
            { initialShard 0 with
              status := Status.WaitingForGuilds,
              expectingGuilds := some ["B"] }).2))
    ∧ ((Shard.checkReady
          { initialShard 0 with expectingGuilds := some ([] : List String) }).1.status
          = Status.Ready
       ∧ Effect.shardEmit (ShardEv.FullReady none)
          ∈ (Shard.checkReady
              { initialShard 0 with expectingGuilds := some ([] : List String) }).2)
    ∧ ((Shard.checkReady
          { initialShard 0 with expectingGuilds := some ["B"] }).1.readyTimeout = true
       ∧ Effect.readyTimerStart
          ∈ (Shard.checkReady
              { initialShard 0 with expectingGuilds := some ["B"] }).2) :=
  ⟨rfl,
   c4_amended.2.1 {} _ "A" 0 rfl,
   (c4_amended.2.2.1 _).1 rfl,
   (c4_amended.2.2.1 _).2 rfl⟩

/-! ## C8 — heartbeat zombie policy -/

/-- C8: when a periodic heartbeat fires (`Heartbeat.new` with its default
`ignore` argument, computed from the shard status) while `acked` is false:
if the status is NOT in the tolerant set {WaitingForGuilds, Identifying,
Resuming}, the result is exactly a `destroy` with `{ code: 4009,
reset: true }` (prefixed by the two zombie debug lines) and nothing is
admitted to the bucket or the unsent queue; if the status IS tolerant, the
heartbeat is still sent — the result is exactly the send of the Heartbeat
op with the current sequence (with the missed-ack condition logged),
`acked` cleared and `last` stamped. -/
theorem c8_zombie_policy (st : ShardState) (now : Nat) (pk : Payload) (p : Bool)
    (h : st.heartbeat.acked = false) :
    (tolerantStatuses.contains st.status = false →
      Heartbeat.new st none now
        = ((Shard.destroy st { code := some 4009, reset := true }).1,
           [Effect.debug "Did not receive a heartbeat last time. Assuming zombie connection, destroying and reconnecting.",
            Effect.debug "Zombie Connection"]
             ++ (Shard.destroy st { code := some 4009, reset := true }).2)
        ∧ Effect.bucketAdmit pk p ∉ (Heartbeat.new st none now).2
        ∧ Effect.unsentQueued pk p ∉ (Heartbeat.new st none now).2)
    ∧ (tolerantStatuses.contains st.status = true →
      Heartbeat.new st none now
        = (({ (Shard.send st { op := opHeartbeat, d := PayloadData.seqD st.seq } false).1 with
              heartbeat :=
                { (Shard.send st { op := opHeartbeat, d := PayloadData.seqD st.seq } false).1.heartbeat with
                  acked := false, last := now } } : ShardState),
           [Effect.debug "Did not process last heartbeat ack yet but we are still connected. Sending one now...",
            Effect.debug "Sending a heartbeat to the gateway."]
             ++ (Shard.send st { op := opHeartbeat, d := PayloadData.seqD st.seq } false).2)) := by
  constructor
  · intro ht
    have hnew : Heartbeat.new st none now
        = ((Shard.destroy st { code := some 4009, reset := true }).1,
           [Effect.debug "Did not receive a heartbeat last time. Assuming zombie connection, destroying and reconnecting.",
            Effect.debug "Zombie Connection"]
             ++ (Shard.destroy st { code := some 4009, reset := true }).2) := by
      have ht' : st.status ∉ tolerantStatuses := by simpa using ht
      unfold Heartbeat.new
      simp [h, ht']
    refine ⟨hnew, ?_, ?_⟩ <;>
      rw [hnew] <;>
      simp [(Shard.destroy_no_send st { code := some 4009, reset := true } pk p).1,
        (Shard.destroy_no_send st { code := some 4009, reset := true } pk p).2]
  · intro ht
    have ht' : st.status ∈ tolerantStatuses := by simpa using ht
    unfold Heartbeat.new
    simp [h, ht']

/-- A live shard in status Connected with a missed heartbeat ack. -/
def hbZombieShard : ShardState :=
  { initialShard 0 with status := Status.Connected, ws := some WsState.OPEN }

/-- A live shard in tolerant status Resuming with a missed heartbeat ack. -/
def hbTolerantShard : ShardState :=
  { initialShard 0 with status := Status.Resuming, ws := some WsState.OPEN }

/-- C8, witnessed: a shard in status Connected (not tolerant) with a missed
ack is destroyed with `{ code: 4009, reset: true }` and sends nothing; one
in status Resuming (tolerant) still sends the heartbeat. -/
theorem c8_zombie_policy_witness :
    hbZombieShard.heartbeat.acked = false
    ∧ (Heartbeat.new hbZombieShard none 7
        = ((Shard.destroy hbZombieShard { code := some 4009, reset := true }).1,
           [Effect.debug "Did not receive a heartbeat last time. Assuming zombie connection, destroying and reconnecting.",
            Effect.debug "Zombie Connection"]
             ++ (Shard.destroy hbZombieShard { code := some 4009, reset := true }).2)
       ∧ Effect.bucketAdmit { op := 3 } false ∉ (Heartbeat.new hbZombieShard none 7).2
       ∧ Effect.unsentQueued { op := 3 } false ∉ (Heartbeat.new hbZombieShard none 7).2)
    ∧ (Heartbeat.new hbTolerantShard none 7
        = (({ (Shard.send hbTolerantShard
                { op := opHeartbeat, d := PayloadData.seqD (-1) } false).1 with
              heartbeat :=
                { (Shard.send hbTolerantShard
                    { op := opHeartbeat, d := PayloadData.seqD (-1) } false).1.heartbeat with
                  acked := false, last := 7 } } : ShardState),
           [Effect.debug "Did not process last heartbeat ack yet but we are still connected. Sending one now...",
            Effect.debug "Sending a heartbeat to the gateway."]
             ++ (Shard.send hbTolerantShard
                  { op := opHeartbeat, d := PayloadData.seqD (-1) } false).2)) :=
  ⟨rfl,
   (c8_zombie_policy hbZombieShard 7 { op := 3 } false rfl).1 rfl,
   (c8_zombie_policy hbTolerantShard 7 { op := 3 } false rfl).2 rfl⟩

/-! ## C7 — resume after a resumable close -/

/-- The linear event pipeline after a remote close on a shard: the shard's
close handler runs, the supervisor's Close listener reacts, the shard is
respawned (`connect`), the new socket opens, and the gateway sends Hello.
Returns the supervisor state after the close reaction, the final shard
state, and all effects in order. -/
def resumePipeline (cfg : ManagerCfg) (m : ManagerState) (st : ShardState)
    (code : Nat) (helloMs : Nat) (now : Nat) :
    ManagerState × ShardState × List Effect :=
  let rC := Shard.wsClose st code
  let rM := ISM.onShardClose m rC.1 code
  let rConn := Shard.connect cfg rM.2.1 now
  let rOpen := Shard.wsOpen rConn.1
  let rHello := Shard.packet cfg rOpen.1
    { op := opHello, d := PayloadData.helloD helloMs } now
  (rM.1, rHello.1, rC.2 ++ rM.2.2 ++ rConn.2 ++ rOpen.2 ++ rHello.2)

/-- C7: after a shard close with a non-fatal, resumable code (not in
`un_resumable`) while a session id is present and the unsent queue empty:
the session is not reset, the shard id is (re-)enqueued in the connect
queue, and after reconnect and Hello the shard is in status Resuming with
exactly one payload admitted to its (fresh) bucket, at the head,
prioritized: op 6 carrying `{ token, sequence = closingSeq (the seq at
close), session_id as captured }`. -/
theorem c7_resume_after_close (cfg : ManagerCfg) (m : ManagerState)
    (st : ShardState) (code helloMs now : Nat) (sid : String) (n : Int)
    (w : WsState)
    (hid : st.session.id = some sid)
    (hseq : st.seq = n) (hn : n ≠ -1)
    (hq : st.queue = [])
    (hws : st.ws = some w)
    (hfatal : closeIsFatal m.destroyed code = false)
    (hres : unResumableIncludes code = false) :
    (resumePipeline cfg m st code helloMs now).1.queue.contains st.id = true
    ∧ (resumePipeline cfg m st code helloMs now).2.1.status = Status.Resuming
    ∧ (resumePipeline cfg m st code helloMs now).2.1.session.id = some sid
    ∧ (resumePipeline cfg m st code helloMs now).2.1.bucket
        = [({ op := opResume, d := PayloadData.resumeD cfg.token n sid }, true)] := by
  obtain ⟨id0, status0, seq0, cs0, q0, b0, ws0, eg0, rt0, ca0, hb0, ss0⟩ := st
  obtain ⟨ssid0, hto0⟩ := ss0
  simp only at hid hseq hq hws
  subst hid hseq hq hws
  unfold resumePipeline Shard.wsClose ISM.onShardClose Shard.connect Shard.wsOpen
    Shard.packet Shard.packetEventBranch Shard.packetSeqUpdate Shard.packetOpBranch
    Session.hello Session.identify Session.resume Session.waitForHello
    Shard.destroy Shard.send Shard.connectedB Heartbeat.reset Session.reset
    Heartbeat.setHeartbeatInterval DestroyOptions.defaultArg
  simp [hfatal, hres, hn, bne]
  by_cases hc : id0 ∈ m.queue <;> simp [hc]

/-- A connected shard with a live session "S" and sequence 42, about to
receive a remote close. -/
def resumeShard : ShardState :=
  { initialShard 0 with
    status := Status.Connected,
    seq := 42,
    ws := some WsState.OPEN,
    session := { id := some "S" } }

/-- C7, witnessed: a close with code 1006 on `resumeShard` keeps session
"S", re-enqueues shard 0, and the reconnected shard ends Resuming with the
op-6 resume payload `{ token, sequence = 42, session_id = "S" }` admitted
prioritized as the only bucket entry. -/
theorem c7_resume_after_close_witness :
    resumeShard.session.id = some "S"
    ∧ resumeShard.seq = 42
    ∧ (42 : Int) ≠ -1
    ∧ resumeShard.queue = []
    ∧ resumeShard.ws = some WsState.OPEN
    ∧ closeIsFatal ({} : ManagerState).destroyed 1006 = false
    ∧ unResumableIncludes 1006 = false
    ∧ ((resumePipeline {} {} resumeShard 1006 45000 9).1.queue.contains resumeShard.id = true
       ∧ (resumePipeline {} {} resumeShard 1006 45000 9).2.1.status = Status.Resuming
       ∧ (resumePipeline {} {} resumeShard 1006 45000 9).2.1.session.id = some "S"
       ∧ (resumePipeline {} {} resumeShard 1006 45000 9).2.1.bucket
           = [({ op := opResume,
                 d := PayloadData.resumeD ({} : ManagerCfg).token 42 "S" }, true)]) :=
  ⟨rfl, rfl, by decide, rfl, rfl, by decide, by decide,
   c7_resume_after_close {} {} resumeShard 1006 45000 9 "S" 42 WsState.OPEN
     rfl rfl (by decide) rfl rfl (by decide) (by decide)⟩

/-! ## C10 — Status.Identifying is never assigned -/

theorem Heartbeat.new_status_or_disconnected (st : ShardState) (ig : Option Bool) (now : Nat) :
    (Heartbeat.new st ig now).1.status = st.status ∨
      (Heartbeat.new st ig now).1.status = Status.Disconnected := by
  unfold Heartbeat.new
  dsimp only
  split
  · right
    simp [Shard.destroy_status]
  · left
    simp [Shard.send_status]

theorem Session.new_preserves_status (cfg : ManagerCfg) (st : ShardState) :
    (Session.new cfg st).1.status = st.status := by
  unfold Session.new
  dsimp only
  split
  · rfl
  · simp [Shard.send_status]

theorem Session.resume_status (cfg : ManagerCfg) (st : ShardState) :
    (Session.resume cfg st).1.status = st.status ∨
      (Session.resume cfg st).1.status = Status.Resuming := by
  unfold Session.resume
  dsimp only
  split
  · left
    simp [Session.new_preserves_status]
  · right
    simp [Shard.send_status]

theorem Session.identify_status (cfg : ManagerCfg) (st : ShardState) :
    (Session.identify cfg st).1.status = st.status ∨
      (Session.identify cfg st).1.status = Status.Resuming := by
  unfold Session.identify
  split
  · exact Session.resume_status cfg st
  · left
    exact Session.new_preserves_status cfg st

theorem Heartbeat.new_notId (st : ShardState) (ig : Option Bool) (now : Nat)
    (h : st.status ≠ Status.Identifying) :
    (Heartbeat.new st ig now).1.status ≠ Status.Identifying := by
  rcases Heartbeat.new_status_or_disconnected st ig now with h1 | h1 <;> simp_all

theorem Session.resume_notId (cfg : ManagerCfg) (st : ShardState)
    (h : st.status ≠ Status.Identifying) :
    (Session.resume cfg st).1.status ≠ Status.Identifying := by
  rcases Session.resume_status cfg st with h1 | h1 <;> simp_all

theorem Session.identify_notId (cfg : ManagerCfg) (st : ShardState)
    (h : st.status ≠ Status.Identifying) :
    (Session.identify cfg st).1.status ≠ Status.Identifying := by
  rcases Session.identify_status cfg st with h1 | h1 <;> simp_all

theorem Shard.checkReady_notId (st : ShardState)
    (h : st.status ≠ Status.Identifying) :
    (Shard.checkReady st).1.status ≠ Status.Identifying := by
  rcases Shard.checkReady_status st with h1 | h1 <;> simp_all

theorem Session.hello_notId (cfg : ManagerCfg) (st : ShardState)
    (h : st.status ≠ Status.Identifying) :
    (Session.hello cfg st).1.status ≠ Status.Identifying := by
  unfold Session.hello
  dsimp only
  split
  · exact Session.identify_notId cfg _ h
  · exact Session.identify_notId cfg _ h

theorem Shard.packetSeqUpdate_status (st : ShardState) (pk : Payload) :
    (Shard.packetSeqUpdate st pk).1.status = st.status := by
  unfold Shard.packetSeqUpdate
  cases pk.s <;> rfl

theorem Shard.packetEventBranch_notId (st : ShardState) (pk : Payload) (now : Nat)
    (h : st.status ≠ Status.Identifying) :
    (Shard.packetEventBranch st pk now).1.status ≠ Status.Identifying := by
  unfold Shard.packetEventBranch
  dsimp only
  split
  · exact Heartbeat.new_notId _ none now (by simp)
  · split
    · exact Heartbeat.new_notId _ none now (by simp)
    · exact h

theorem Shard.packetOpBranch_notId (cfg : ManagerCfg) (st : ShardState)
    (pk : Payload) (now : Nat) (h : st.status ≠ Status.Identifying) :
    (Shard.packetOpBranch cfg st pk now).1.status ≠ Status.Identifying := by
  unfold Shard.packetOpBranch
  dsimp only
  split
  · exact Session.hello_notId cfg _ h
  · split
    · simp [Shard.destroy_status]
    · split
      · split
        · exact Session.resume_notId cfg _ h
        · exact h
      · split
        · exact Heartbeat.new_notId _ (some true) now h
        · split
          · exact h
          · split
            · exact Shard.checkReady_notId _ h
            · exact h

theorem Shard.packet_notId (cfg : ManagerCfg) (st : ShardState) (pk : Payload)
    (now : Nat) (h : st.status ≠ Status.Identifying) :
    (Shard.packet cfg st pk now).1.status ≠ Status.Identifying := by
  unfold Shard.packet
  dsimp only
  apply Shard.packetOpBranch_notId
  rw [Shard.packetSeqUpdate_status]
  exact Shard.packetEventBranch_notId st pk now h

theorem Shard.drain_status (fuel : Nat) (st : ShardState) :
    (Shard.drain fuel st).1.status = st.status := by
  induction fuel generalizing st with
  | zero => rfl
  | succ fuel ih =>
    cases hq : st.queue <;> simp [Shard.drain, hq, ih, Shard.send_status]

theorem Shard.wsOpen_status (st : ShardState) :
    (Shard.wsOpen st).1.status = Status.Nearly := by
  unfold Shard.wsOpen
  dsimp only
  split
  · rfl
  · simp [Shard.drain_status]

theorem Shard.wsClose_status (st : ShardState) (code : Nat) :
    (Shard.wsClose st code).1.status = Status.Disconnected := rfl

theorem Session.helloTimeoutFire_status (st : ShardState) :
    (Session.helloTimeoutFire st).1.status = Status.Disconnected := by
  unfold Session.helloTimeoutFire
  dsimp only
  simp [Shard.destroy_status]

theorem Shard.connect_notId (cfg : ManagerCfg) (st : ShardState) (now : Nat)
    (h : st.status ≠ Status.Identifying) :
    (Shard.connect cfg st now).1.status ≠ Status.Identifying := by
  unfold Shard.connect
  dsimp only
  split
  · exact Session.identify_notId cfg st h
  · split <;> simp [Session.waitForHello] <;> split <;> simp

theorem ISM.onShardClose_notId (m : ManagerState) (st : ShardState) (code : Nat)
    (h : st.status ≠ Status.Identifying) :
    (ISM.onShardClose m st code).2.1.status ≠ Status.Identifying := by
  unfold ISM.onShardClose
  dsimp only
  repeat' split
  all_goals first | exact h | simp [Shard.destroy_status]

theorem sysStep_notId (cfg : ManagerCfg) (s : SysState) (op : Op)
    (h : s.shard.status ≠ Status.Identifying) :
    (sysStep cfg s op).1.shard.status ≠ Status.Identifying := by
  cases op with
  | connect now => exact Shard.connect_notId cfg s.shard now h
  | wsOpen =>
    show (Shard.wsOpen s.shard).1.status ≠ Status.Identifying
    rw [Shard.wsOpen_status]
    decide
  | wsClose code =>
    refine ISM.onShardClose_notId s.mgr _ code ?_
    rw [Shard.wsClose_status]
    decide
  | packet pk now => exact Shard.packet_notId cfg s.shard pk now h
  | send pk p =>
    show (Shard.send s.shard pk p).1.status ≠ Status.Identifying
    rw [Shard.send_status]
    exact h
  | destroy o =>
    show (Shard.destroy s.shard o).1.status ≠ Status.Identifying
    rw [Shard.destroy_status]
    decide
  | heartbeatTick now =>
    exact Heartbeat.new_notId s.shard none now h
  | helloTimeoutFire =>
    show (Session.helloTimeoutFire s.shard).1.status ≠ Status.Identifying
    rw [Session.helloTimeoutFire_status]
    decide
  | readyTimeoutFire =>
    show (Shard.readyTimeoutFire s.shard).1.status ≠ Status.Identifying
    simp [Shard.readyTimeoutFire]
  | compressionError msg => exact h

theorem sysRun_notId (cfg : ManagerCfg) (ops : List Op) (s : SysState)
    (h : s.shard.status ≠ Status.Identifying) :
    (sysRun cfg s ops).shard.status ≠ Status.Identifying := by
  induction ops generalizing s with
  | nil => exact h
  | cons op rest ih => exact ih _ (sysStep_notId cfg s op h)

/-- C10: the status Identifying is unreachable.  `Session.new` sends the
Identify payload without changing the shard status, and no operation of
the shard, session, heartbeat or supervisor close-reaction ever assigns
`Status.Identifying`: from the initial state, every sequence of operations
(connect, socket open/close with the supervisor reaction, inbound packets,
sends, destroys, the three timer bodies, decompressor errors) leaves the
shard in a status other than Identifying — so the Identifying member of
the heartbeat tolerant set can never be the live status. -/
theorem c10_no_identifying :
    (∀ (cfg : ManagerCfg) (st : ShardState),
      (Session.new cfg st).1.status = st.status)
    ∧ (∀ (cfg : ManagerCfg) (ops : List Op),
      (sysRun cfg initialSys ops).shard.status ≠ Status.Identifying) :=
  ⟨Session.new_preserves_status,
   fun cfg ops => sysRun_notId cfg ops initialSys (by decide)⟩

end NeoCord
